import Mathlib

/-!
Shallow embedding of the dependency reclassification and artifact-generation
engine of create_gz_vendor_pkg/create_vendor_package.py, together with proofs
of the specified properties.  Stateful Python (in-place mutation of Dependency
names, attribute assignment on Package) is embedded as pure record updates;
Python exceptions (ValueError / RuntimeError) are embedded as Except values.
-/

namespace GzVendor

/-- Dependency record following the catkin_pkg Dependency slots that take part
in equality (its evaluated_condition slot is excluded from equality by
catkin_pkg itself and is never set in this pipeline, so it is omitted).
Structural equality of this record embeds the Python == on Dependency. -/
structure Dependency where
  name : String
  version_lt : Option String := none
  version_lte : Option String := none
  version_eq : Option String := none
  version_gte : Option String := none
  version_gt : Option String := none
  condition : Option String := none
  deriving DecidableEq, Repr

/-- Package record: the fields of a catkin_pkg Package that the engine reads
or writes (name, version and the seven typed dependency lists of
DEPENDENCY_TYPES). -/
structure Package where
  name : String
  version : String
  build_depends : List Dependency := []
  buildtool_depends : List Dependency := []
  build_export_depends : List Dependency := []
  buildtool_export_depends : List Dependency := []
  exec_depends : List Dependency := []
  test_depends : List Dependency := []
  doc_depends : List Dependency := []
  deriving DecidableEq, Repr

/-- GZ_LIBRARIES: names of the vendor-family libraries as they appear in
package.xml files. -/
def GZ_LIBRARIES : List String :=
  ["gz-cmake", "gz-common", "gz-fuel_tools", "gz-gui", "gz-launch", "gz-math",
   "gz-msgs", "gz-physics", "gz-plugin", "gz-rendering", "gz-sensors",
   "gz-sim", "gz-tools", "gz-transport", "gz-utils", "sdformat"]

/-- EXTRA_VENDORED_PKGS: exception mapping from non-uniformly-named packages
to their final vendor identifiers, as an association list. -/
def EXTRA_VENDORED_PKGS : List (String × String) :=
  [("dartsim", "gz_dartsim_vendor"),
   ("DART", "gz_dartsim_vendor"),
   ("libogre-next-2.3-dev", "gz_ogre_next_vendor"),
   ("libogre-next-2.3", "gz_ogre_next_vendor"),
   ("spdlog", "spdlog_vendor")]

/-- DEPENDENCY_DISALLOW_LIST: dependencies removed from the upstream
package.xml before any classification. -/
def DEPENDENCY_DISALLOW_LIST : List String :=
  ["python3-distutils"]

/-- Body of filter_impl inside filter_dependencies: keep dependencies whose
name is not on the disallow list. -/
def filter_impl (deps : List Dependency) : List Dependency :=
  deps.filter (fun dep => !(DEPENDENCY_DISALLOW_LIST.contains dep.name))

/-- filter_dependencies: apply filter_impl to every one of the seven
dependency kinds of DEPENDENCY_TYPES. -/
def filter_dependencies (package : Package) : Package :=
  { package with
    build_depends := filter_impl package.build_depends
    buildtool_depends := filter_impl package.buildtool_depends
    build_export_depends := filter_impl package.build_export_depends
    buildtool_export_depends := filter_impl package.buildtool_export_depends
    exec_depends := filter_impl package.exec_depends
    test_depends := filter_impl package.test_depends
    doc_depends := filter_impl package.doc_depends }

/-- Character class of the first group of the remove_version pattern:
hyphen, underscore or a lowercase ASCII letter. -/
def isNameChar (c : Char) : Bool :=
  c == '-' || c == '_' || c.isLower

/-- Embedding of re.match applied to the anchored-at-start pattern with
groups (name-chars)* then (digits)*: both groups are Kleene-starred, so the
match always succeeds; group 1 greedily takes the leading run of name
characters, group 2 the following run of digits, and any remainder of the
string is left unconsumed, exactly as re.match does. -/
def matchPkgName (pkg_name : String) : Option (String × String) :=
  let g1 := pkg_name.data.takeWhile isNameChar
  let rest := pkg_name.data.dropWhile isNameChar
  some (String.mk g1, String.mk (rest.takeWhile Char.isDigit))

/-- The two regex groups of remove_version as a total pair (justified by
the theorem stating that matchPkgName never fails). -/
def removeVersionPair (pkg_name : String) : String × String :=
  (String.mk (pkg_name.data.takeWhile isNameChar),
   String.mk ((pkg_name.data.dropWhile isNameChar).takeWhile Char.isDigit))

/-- remove_version with return_version=True: both groups, or the
RuntimeError when the pattern does not match. -/
def remove_version (pkg_name : String) : Except String (String × String) :=
  match matchPkgName pkg_name with
  | none => Except.error "Could not parse package name"
  | some groups => Except.ok groups

/-- Value of a list of decimal digit characters. -/
def digitsToNat (l : List Char) : Nat :=
  l.foldl (fun acc c => 10 * acc + (c.toNat - 48)) 0

/-- Embedding of the Python int() constructor for the strings this pipeline
feeds it (regex digit-run groups): succeeds on a nonempty all-digit string,
raises ValueError (none) otherwise - in particular on the empty string. -/
def strToNat (s : String) : Option Nat :=
  if s.data ≠ [] ∧ s.data.all Char.isDigit then some (digitsToNat s.data)
  else none

/-- Inner helper is_gz_cmake4 of build_docs_deprecated: the name has base
gz-cmake and embedded major version at least 4.  The Python conjunction
short-circuits, so int() is only reached-and can only raise-when the base
name is exactly gz-cmake. -/
def is_gz_cmake4 (name : String) : Except String Bool :=
  let groups := removeVersionPair name
  if groups.1 = "gz-cmake" then
    match strToNat groups.2 with
    | none => Except.error "invalid literal for int() with base 10"
    | some v => Except.ok (decide (4 ≤ v))
  else
    Except.ok false

/-- The for-loop of build_docs_deprecated over build_depends with its early
return on the first dependency satisfying is_gz_cmake4. -/
def anyGzCmake4 : List Dependency → Except String Bool
  | [] => Except.ok false
  | dep :: rest => do
    let b ← is_gz_cmake4 dep.name
    if b then Except.ok true else anyGzCmake4 rest

/-- build_docs_deprecated: the package itself is gz-cmake4-or-later, or some
build dependency is. -/
def build_docs_deprecated (package : Package) : Except String Bool := do
  let b ← is_gz_cmake4 package.name
  if b then Except.ok true
  else anyGzCmake4 package.build_depends

/-- create_vendor_name: replace hyphens by underscores (the pattern is a
single character, so str.replace is a character map) and append _vendor. -/
def create_vendor_name (pkg_name : String) : String :=
  String.mk (pkg_name.data.map (fun c => if c = '-' then '_' else c)) ++ "_vendor"

/-- is_gz_library: the raw name is a key of the exception mapping, or the
name with its trailing version digits removed is in GZ_LIBRARIES. -/
def is_gz_library (dep : Dependency) : Bool :=
  if (EXTRA_VENDORED_PKGS.lookup dep.name).isSome then true
  else GZ_LIBRARIES.contains (removeVersionPair dep.name).1

/-- vendorize_gz_dependency: in-place name mutation embedded as a record
update; exception-mapping keys take the mapped value verbatim, everything
else takes the regular create_vendor_name transform of its base name. -/
def vendorize_gz_dependency (dep : Dependency) : Dependency :=
  match EXTRA_VENDORED_PKGS.lookup dep.name with
  | some vendored => { dep with name := vendored }
  | none => { dep with name := create_vendor_name (removeVersionPair dep.name).1 }

/-- separate_gz_deps: order-preserving partition of a dependency list into
(vendor-family, passthrough). -/
def separate_gz_deps : List Dependency → List Dependency × List Dependency
  | [] => ([], [])
  | dep :: rest =>
    let p := separate_gz_deps rest
    if is_gz_library dep then (dep :: p.1, p.2) else (p.1, dep :: p.2)

/-- Result record of split_version. -/
structure SemVer where
  major : Nat
  minor : Nat
  patch : Nat
  deriving DecidableEq, Repr

/-- split_version: embedding of the anchored match against digits, dot,
digits, dot, digits - three greedy nonempty digit groups with a literal dot
after the first and second.  The closing anchor is the Python dollar, which
matches at the end of the string or just before one final newline, so after
the third group either nothing or a single trailing newline may remain; any
other shape is the ValueError branch. -/
def split_version (version : String) : Except String SemVer :=
  let d1 := version.data.takeWhile Char.isDigit
  let r1 := version.data.dropWhile Char.isDigit
  let s1 := r1.tail
  let d2 := s1.takeWhile Char.isDigit
  let r2 := s1.dropWhile Char.isDigit
  let s2 := r2.tail
  let d3 := s2.takeWhile Char.isDigit
  let r3 := s2.dropWhile Char.isDigit
  if d1 ≠ [] ∧ r1.head? = some '.' ∧ d2 ≠ [] ∧ r2.head? = some '.' ∧
      d3 ≠ [] ∧ (r3 = [] ∨ r3 = ['\n']) then
    Except.ok ⟨digitsToNat d1, digitsToNat d2, digitsToNat d3⟩
  else
    Except.error "Invalid version string, must be int.int.int"

/-- Loop body of stable_unique: the growing unique_items accumulator, with
membership tested by structural equality exactly as the Python in-operator
does via Dependency eq. -/
def stableUniqueAux {α : Type} [DecidableEq α] : List α → List α → List α
  | [], acc => acc
  | x :: xs, acc =>
    if x ∈ acc then stableUniqueAux xs acc
    else stableUniqueAux xs (acc ++ [x])

/-- stable_unique: drop later occurrences of already-seen items, keeping
first-seen order. -/
def stable_unique {α : Type} [DecidableEq α] (items : List α) : List α :=
  stableUniqueAux items []

/-- Specification-level first-occurrence deduplication, the reference point
for the stability claim: keep the head and deduplicate the tail with every
copy of the head removed. -/
def dedupFirst {α : Type} [DecidableEq α] : List α → List α
  | [] => []
  | x :: xs => x :: dedupFirst (xs.filter (fun y => decide (y ≠ x)))
  termination_by l => l.length
  decreasing_by
    simp only [List.length_cons]
    exact Nat.lt_succ_of_le (List.length_filter_le _ _)

/-- pkg_has_extra_cmake: true unless the package is one of the two trivial
tooling packages. -/
def pkg_has_extra_cmake (pkg_name_no_version : String) : Bool :=
  !(["gz-tools", "gz-cmake"].contains pkg_name_no_version)

/-- pkg_has_dsv: same exception set as pkg_has_extra_cmake. -/
def pkg_has_dsv (pkg_name_no_version : String) : Bool :=
  !(["gz-tools", "gz-cmake"].contains pkg_name_no_version)

/-- pkg_has_patches: gz-cmake below major version 4, or gz-rendering.  The
Python conjunction short-circuits, so int(pkg_version) is only evaluated
when the base name is gz-cmake. -/
def pkg_has_patches (pkg_name_no_version : String) (pkg_version : String) :
    Except String Bool :=
  if pkg_name_no_version = "gz-cmake" then
    match strToNat pkg_version with
    | none => Except.error "invalid literal for int() with base 10"
    | some v =>
      if v < 4 then Except.ok true
      else Except.ok (["gz-rendering"].contains pkg_name_no_version)
  else Except.ok (["gz-rendering"].contains pkg_name_no_version)

/-- pkg_has_swig: only the math library. -/
def pkg_has_swig (pkg_name_no_version : String) : Bool :=
  ["gz-math"].contains pkg_name_no_version

/-- pkg_has_pybind11: math, sdformat, transport and sim. -/
def pkg_has_pybind11 (pkg_name_no_version : String) : Bool :=
  ["gz-math", "sdformat", "gz-transport", "gz-sim"].contains pkg_name_no_version

/-- pkg_has_docs: every package except sdformat. -/
def pkg_has_docs (pkg_name_no_version : String) : Bool :=
  !(["sdformat"].contains pkg_name_no_version)

/-- cmake_pkg_name: identity except the fuel-tools hyphen/underscore swap. -/
def cmake_pkg_name (pkg_name_no_version : String) : String :=
  if pkg_name_no_version = "gz-fuel-tools" then "gz-fuel_tools"
  else pkg_name_no_version

/-- github_pkg_name: inverse of the cmake_pkg_name exception. -/
def github_pkg_name (pkg_name_no_version : String) : String :=
  if pkg_name_no_version = "gz-fuel_tools" then "gz-fuel-tools"
  else pkg_name_no_version

/-- separate_and_vendorize_gz_deps: deep-copy the package (value semantics
here), split the build, exec, test and doc dependency lists into vendor and
passthrough parts, deduplicate the concatenated vendor parts with
stable_unique, then rewrite each surviving vendor dependency in place
(a map, since the kept representatives are the objects the lists hold). -/
def separate_and_vendorize_gz_deps (src_pkg_xml : Package) :
    List Dependency × Package :=
  let sb := separate_gz_deps src_pkg_xml.build_depends
  let se := separate_gz_deps src_pkg_xml.exec_depends
  let st := separate_gz_deps src_pkg_xml.test_depends
  let sd := separate_gz_deps src_pkg_xml.doc_depends
  let gz_deps := stable_unique (sb.1 ++ se.1 ++ st.1 ++ sd.1)
  (gz_deps.map vendorize_gz_dependency,
   { src_pkg_xml with
     build_depends := sb.2
     exec_depends := se.2
     test_depends := st.2
     doc_depends := sd.2 })

/-- RenderParameters assembled by create_vendor_package_xml before handing
them to the external template renderer (the render itself is the out-of-core
boundary; the manifest version field is vendor_pkg_version). -/
structure PackageXmlParams where
  gz_vendor_deps : List Dependency
  pkg : Package
  vendor_name : String
  vendor_pkg_version : String
  deriving DecidableEq, Repr

/-- Parameter assembly of create_vendor_package_xml: classify and rewrite
the dependencies, derive the vendor name, and carry forward the existing
generated descriptor version when there is one, defaulting to 0.0.1. -/
def create_vendor_package_params (src_pkg_xml : Package)
    (existing_package : Option Package) : PackageXmlParams :=
  let sep := separate_and_vendorize_gz_deps src_pkg_xml
  { gz_vendor_deps := sep.1
    pkg := sep.2
    vendor_name := create_vendor_name (removeVersionPair sep.2.name).1
    vendor_pkg_version :=
      match existing_package with
      | some p => p.version
      | none => "0.0.1" }

/-- Every dependency list of the two generated artifacts, flattened: the
rewritten vendor list (rendered as unconditional depend entries by both
templates) and the seven per-kind lists of the output package, computed as
generate_vendor_package_files does - filter first, then classify. -/
def generatedArtifactDeps (package : Package) : List Dependency :=
  let filtered := filter_dependencies package
  let sep := separate_and_vendorize_gz_deps filtered
  sep.1 ++ sep.2.build_depends ++ sep.2.buildtool_depends ++
    sep.2.build_export_depends ++ sep.2.buildtool_export_depends ++
    sep.2.exec_depends ++ sep.2.test_depends ++ sep.2.doc_depends

/-! ### Helper lemmas -/

theorem isDigit_isNameChar_false {c : Char} (h : c.isDigit = true) :
    isNameChar c = false := by
  simp only [Char.isDigit, Bool.and_eq_true, decide_eq_true_eq] at h
  have hne1 : (c == '-') = false := by
    refine beq_eq_false_iff_ne.mpr fun hc => ?_
    subst hc; exact absurd h.1 (by decide)
  have hne2 : (c == '_') = false := by
    refine beq_eq_false_iff_ne.mpr fun hc => ?_
    subst hc; exact absurd h.2 (by decide)
  have hlow : c.isLower = false := by
    simp only [Char.isLower]
    have hn : ¬(97 : UInt32) ≤ c.val := fun hval =>
      absurd (UInt32.le_trans hval h.2) (by decide)
    simp [hn]
  simp [isNameChar, hne1, hne2, hlow]

theorem isUpper_isNameChar_false {c : Char} (h : c.isUpper = true) :
    isNameChar c = false := by
  simp only [Char.isUpper, Bool.and_eq_true, decide_eq_true_eq] at h
  have hne1 : (c == '-') = false := by
    refine beq_eq_false_iff_ne.mpr fun hc => ?_
    subst hc; exact absurd h.1 (by decide)
  have hne2 : (c == '_') = false := by
    refine beq_eq_false_iff_ne.mpr fun hc => ?_
    subst hc; exact absurd h.2 (by decide)
  have hlow : c.isLower = false := by
    simp only [Char.isLower]
    have hn : ¬(97 : UInt32) ≤ c.val := fun hval =>
      absurd (UInt32.le_trans hval h.2) (by decide)
    simp [hn]
  simp [isNameChar, hne1, hne2, hlow]

theorem takeWhile_all_eq {α : Type} {p : α → Bool} : ∀ {l : List α},
    (∀ x ∈ l, p x = true) → l.takeWhile p = l
  | [], _ => rfl
  | x :: xs, h => by
    rw [List.takeWhile_cons_of_pos (h x (List.mem_cons_self x xs))]
    rw [takeWhile_all_eq fun y hy => h y (List.mem_cons_of_mem x hy)]

theorem dropWhile_all_eq {α : Type} {p : α → Bool} : ∀ {l : List α},
    (∀ x ∈ l, p x = true) → l.dropWhile p = []
  | [], _ => rfl
  | x :: xs, h => by
    rw [List.dropWhile_cons_of_pos (h x (List.mem_cons_self x xs))]
    exact dropWhile_all_eq fun y hy => h y (List.mem_cons_of_mem x hy)

theorem dedupFirst_sublist {α : Type} [DecidableEq α] :
    ∀ l : List α, List.Sublist (dedupFirst l) l
  | [] => by rw [dedupFirst]
  | x :: xs => by
    rw [dedupFirst]
    exact List.Sublist.cons₂ x
      ((dedupFirst_sublist _).trans (List.filter_sublist _))
  termination_by l => l.length
  decreasing_by
    simp only [List.length_cons]
    exact Nat.lt_succ_of_le (List.length_filter_le _ _)

theorem mem_dedupFirst {α : Type} [DecidableEq α] :
    ∀ (l : List α) (y : α), y ∈ dedupFirst l ↔ y ∈ l
  | [], y => by rw [dedupFirst]
  | x :: xs, y => by
    rw [dedupFirst]
    constructor
    · intro h
      rcases List.mem_cons.mp h with h | h
      · exact h ▸ List.mem_cons_self x xs
      · exact List.mem_cons_of_mem x
          (List.mem_of_mem_filter ((mem_dedupFirst _ y).mp h))
    · intro h
      rcases List.mem_cons.mp h with h | h
      · exact h ▸ List.mem_cons_self x _
      · by_cases hyx : y = x
        · exact hyx ▸ List.mem_cons_self x _
        · exact List.mem_cons_of_mem x ((mem_dedupFirst _ y).mpr
            (List.mem_filter.mpr ⟨h, by simp [hyx]⟩))
  termination_by l => l.length
  decreasing_by
    all_goals simp only [List.length_cons]
    all_goals exact Nat.lt_succ_of_le (List.length_filter_le _ _)

theorem dedupFirst_nodup {α : Type} [DecidableEq α] :
    ∀ l : List α, (dedupFirst l).Nodup
  | [] => by rw [dedupFirst]; exact List.nodup_nil
  | x :: xs => by
    rw [dedupFirst]
    refine List.nodup_cons.mpr ⟨fun hx => ?_, dedupFirst_nodup _⟩
    have := List.mem_filter.mp ((mem_dedupFirst _ x).mp hx)
    simp at this
  termination_by l => l.length
  decreasing_by
    all_goals simp only [List.length_cons]
    all_goals exact Nat.lt_succ_of_le (List.length_filter_le _ _)

theorem stableUniqueAux_eq {α : Type} [DecidableEq α] :
    ∀ (l acc : List α), stableUniqueAux l acc =
      acc ++ dedupFirst (l.filter (fun x => decide (x ∉ acc)))
  | [], acc => by
    rw [stableUniqueAux, List.filter_nil, dedupFirst, List.append_nil]
  | x :: xs, acc => by
    rw [stableUniqueAux]
    by_cases hx : x ∈ acc
    · rw [if_pos hx, stableUniqueAux_eq xs acc, List.filter_cons,
        if_neg (by simp [hx])]
    · rw [if_neg hx, stableUniqueAux_eq xs (acc ++ [x]), List.filter_cons,
        if_pos (by simp [hx]), dedupFirst, List.filter_filter,
        List.append_assoc, List.singleton_append]
      have hpred : ∀ y,
          (decide (y ≠ x) && decide (y ∉ acc)) = decide (y ∉ acc ++ [x]) := by
        intro y
        by_cases h1 : y = x
        · subst h1; simp [hx]
        · by_cases h2 : y ∈ acc <;> simp [h1, h2]
      have hfc : List.filter (fun a => decide (a ≠ x) && decide (a ∉ acc)) xs =
          List.filter (fun a => decide (a ∉ acc ++ [x])) xs :=
        List.filter_congr (fun y _ => hpred y)
      rw [hfc]

theorem stable_unique_eq_dedupFirst {α : Type} [DecidableEq α] (l : List α) :
    stable_unique l = dedupFirst l := by
  rw [stable_unique, stableUniqueAux_eq, List.nil_append,
    List.filter_eq_self.mpr (fun a _ => by simp)]

theorem mem_stable_unique {α : Type} [DecidableEq α] {l : List α} {y : α} :
    y ∈ stable_unique l ↔ y ∈ l := by
  rw [stable_unique_eq_dedupFirst]
  exact mem_dedupFirst l y

theorem separate_gz_deps_eq (l : List Dependency) :
    separate_gz_deps l =
      (l.filter is_gz_library, l.filter (fun d => !(is_gz_library d))) := by
  induction l with
  | nil => rfl
  | cons d rest ih =>
    rw [separate_gz_deps, ih]
    by_cases h : is_gz_library d <;> simp [h, List.filter_cons]

theorem lookup_extra_val {name v : String}
    (h : EXTRA_VENDORED_PKGS.lookup name = some v) :
    v = "gz_dartsim_vendor" ∨ v = "gz_ogre_next_vendor" ∨
      v = "spdlog_vendor" := by
  simp only [EXTRA_VENDORED_PKGS, List.lookup] at h
  repeat' split at h
  all_goals simp_all

theorem create_vendor_name_gz_ne {s : String} (hs : s ∈ GZ_LIBRARIES) :
    create_vendor_name s ≠ "dartsim_vendor" := by
  have hall : ∀ x ∈ GZ_LIBRARIES, create_vendor_name x ≠ "dartsim_vendor" := by
    decide
  exact hall s hs

theorem append_vendor_ne (s : String) :
    s ++ "_vendor" ≠ "python3-distutils" := by
  intro h
  have hd : (s.data ++ "_vendor".data).getLast? =
      ("python3-distutils".data).getLast? := by
    rw [← String.data_append, h]
  rw [List.getLast?_append] at hd
  have h1 : ("_vendor".data).getLast? = some 'r' := rfl
  rw [h1] at hd
  exact absurd
    (show some 'r' = ("python3-distutils".data).getLast? from hd) (by decide)

theorem vendorize_ne_dartsim (d : Dependency) (hgz : is_gz_library d = true) :
    (vendorize_gz_dependency d).name ≠ "dartsim_vendor" := by
  unfold vendorize_gz_dependency
  cases hl : EXTRA_VENDORED_PKGS.lookup d.name with
  | some v =>
    show v ≠ "dartsim_vendor"
    rcases lookup_extra_val hl with h | h | h <;> subst h <;> decide
  | none =>
    show create_vendor_name (removeVersionPair d.name).1 ≠ "dartsim_vendor"
    simp [is_gz_library, hl] at hgz
    exact create_vendor_name_gz_ne hgz

theorem filter_impl_name {d : Dependency} {l : List Dependency}
    (h : d ∈ filter_impl l) : d.name ∉ DEPENDENCY_DISALLOW_LIST := by
  have h2 := (List.mem_filter.mp h).2
  simp only [Bool.not_eq_true'] at h2
  intro hmem
  have h3 : DEPENDENCY_DISALLOW_LIST.contains d.name = true := by
    simpa [List.contains] using List.elem_iff.mpr hmem
  rw [h3] at h2
  cases h2

theorem vendorize_name_not_disallowed (d : Dependency) :
    (vendorize_gz_dependency d).name ∉ DEPENDENCY_DISALLOW_LIST := by
  unfold vendorize_gz_dependency
  cases hl : EXTRA_VENDORED_PKGS.lookup d.name with
  | some v =>
    show v ∉ DEPENDENCY_DISALLOW_LIST
    rcases lookup_extra_val hl with h | h | h <;> subst h <;> decide
  | none =>
    show create_vendor_name (removeVersionPair d.name).1 ∉
      DEPENDENCY_DISALLOW_LIST
    intro hmem
    simp only [DEPENDENCY_DISALLOW_LIST, List.mem_singleton] at hmem
    unfold create_vendor_name at hmem
    exact append_vendor_ne _ hmem

/-! ### Claim theorems -/

/-- C1 counterexample: a vendor-family dependency appearing only in the
buildtool kind is neither placed in the vendor set nor removed from its
list - separate_and_vendorize_gz_deps gathers from build, exec, test and
doc only, not from all seven dependency kinds. -/
theorem C1_counterexample :
    is_gz_library { name := "gz-cmake3" } = true ∧
    (separate_and_vendorize_gz_deps
        { name := "gz-sim9", version := "1.2.3",
          buildtool_depends := [{ name := "gz-cmake3" }] }).1 = [] ∧
    (separate_and_vendorize_gz_deps
        { name := "gz-sim9", version := "1.2.3",
          buildtool_depends := [{ name := "gz-cmake3" }] }).2.buildtool_depends =
      [{ name := "gz-cmake3" }] := by
  refine ⟨by decide, by decide, by decide⟩

/-- C1 amended: the vendor set is the deduplicated union gathered across the
four kinds build, exec, test and doc: a vendor-family dependency in any of
those kinds is rewritten into the vendor list and removed from that kind in
the output package, while the buildtool, build_export and buildtool_export
lists are passed through untouched. -/
theorem C1_amended (pkg : Package) (d : Dependency)
    (hgz : is_gz_library d = true) :
    ((d ∈ pkg.build_depends ∨ d ∈ pkg.exec_depends ∨ d ∈ pkg.test_depends ∨
        d ∈ pkg.doc_depends) →
      vendorize_gz_dependency d ∈ (separate_and_vendorize_gz_deps pkg).1) ∧
    d ∉ (separate_and_vendorize_gz_deps pkg).2.build_depends ∧
    d ∉ (separate_and_vendorize_gz_deps pkg).2.exec_depends ∧
    d ∉ (separate_and_vendorize_gz_deps pkg).2.test_depends ∧
    d ∉ (separate_and_vendorize_gz_deps pkg).2.doc_depends ∧
    (separate_and_vendorize_gz_deps pkg).2.buildtool_depends =
      pkg.buildtool_depends ∧
    (separate_and_vendorize_gz_deps pkg).2.build_export_depends =
      pkg.build_export_depends ∧
    (separate_and_vendorize_gz_deps pkg).2.buildtool_export_depends =
      pkg.buildtool_export_depends := by
  simp only [separate_and_vendorize_gz_deps, separate_gz_deps_eq]
  refine ⟨fun hmem => ?_, ?_, ?_, ?_, ?_, by trivial, by trivial, by trivial⟩
  · refine List.mem_map_of_mem vendorize_gz_dependency (mem_stable_unique.mpr ?_)
    simp only [List.mem_append, List.mem_filter]
    rcases hmem with h | h | h | h
    · exact Or.inl (Or.inl (Or.inl ⟨h, hgz⟩))
    · exact Or.inl (Or.inl (Or.inr ⟨h, hgz⟩))
    · exact Or.inl (Or.inr ⟨h, hgz⟩)
    · exact Or.inr ⟨h, hgz⟩
  all_goals intro hcon
  all_goals simp only [List.mem_filter, hgz, Bool.not_true] at hcon
  all_goals exact absurd hcon.2 (by simp)

/-- Witness for C1 amended: a gz-math8 build dependency lands, rewritten, in
the vendor list. -/
theorem C1_witness :
    vendorize_gz_dependency { name := "gz-math8" } ∈
      (separate_and_vendorize_gz_deps
        { name := "gz-sim9", version := "1.2.3",
          build_depends := [{ name := "gz-math8" }] }).1 :=
  (C1_amended
    { name := "gz-sim9", version := "1.2.3",
      build_depends := [{ name := "gz-math8" }] }
    { name := "gz-math8" } (by decide)).1
    (Or.inl (List.mem_singleton.mpr rfl))

/-- C9: both groups of the remove_version pattern are Kleene-starred, so the
regex match succeeds on every input string and the MalformedName
(RuntimeError) branch is unreachable: remove_version always returns the two
groups, and a name starting with a digit or an uppercase letter gets the
empty string as its base group. -/
theorem C9_remove_version_total (s : String) :
    remove_version s = Except.ok (removeVersionPair s) ∧
    (∀ c rest, s.data = c :: rest → (c.isDigit = true ∨ c.isUpper = true) →
      (removeVersionPair s).1 = "") := by
  constructor
  · rfl
  · intro c rest hdata hc
    have hname : isNameChar c = false := by
      cases hc with
      | inl h => exact isDigit_isNameChar_false h
      | inr h => exact isUpper_isNameChar_false h
    show String.mk (s.data.takeWhile isNameChar) = ""
    rw [hdata, List.takeWhile_cons_of_neg (by simp [hname])]

/-- Witness for C9 at the concrete name 9abc. -/
theorem C9_witness : (removeVersionPair "9abc").1 = "" :=
  (C9_remove_version_total "9abc").2 '9' ['a', 'b', 'c'] rfl (Or.inl (by decide))

/-- C8: vendorize_gz_dependency rewrites only the name field of a
dependency; every version-constraint field and the condition field are
unchanged by the rewrite. -/
theorem C8_rewrite_frame (dep : Dependency) :
    (vendorize_gz_dependency dep).version_lt = dep.version_lt ∧
    (vendorize_gz_dependency dep).version_lte = dep.version_lte ∧
    (vendorize_gz_dependency dep).version_eq = dep.version_eq ∧
    (vendorize_gz_dependency dep).version_gte = dep.version_gte ∧
    (vendorize_gz_dependency dep).version_gt = dep.version_gt ∧
    (vendorize_gz_dependency dep).condition = dep.condition := by
  unfold vendorize_gz_dependency
  cases EXTRA_VENDORED_PKGS.lookup dep.name <;> simp

/-- C2: the assembled manifest version equals the prior descriptor's version
string when one is supplied and the fixed default 0.0.1 otherwise, so
feeding a run's output version back in as the prior descriptor reproduces it
unchanged (regeneration is idempotent with respect to version). -/
theorem C2_version_carryover (src : Package) (existing : Option Package) :
    (existing = none →
      (create_vendor_package_params src existing).vendor_pkg_version = "0.0.1") ∧
    (∀ p, existing = some p →
      (create_vendor_package_params src existing).vendor_pkg_version = p.version) ∧
    (∀ src2 prior, prior.version =
        (create_vendor_package_params src existing).vendor_pkg_version →
      (create_vendor_package_params src2 (some prior)).vendor_pkg_version =
        (create_vendor_package_params src existing).vendor_pkg_version) := by
  refine ⟨fun h => ?_, fun p h => ?_, fun src2 prior h => ?_⟩
  · subst h; rfl
  · subst h; rfl
  · exact h

/-- C4: a dependency whose raw name is a key of the exception mapping is
rewritten to exactly the mapped vendor identifier, never through the regular
underscore-and-vendor transform: dartsim becomes gz_dartsim_vendor, and no
vendor-family dependency is ever rewritten to dartsim_vendor. -/
theorem C4_exception_rewrite (dep : Dependency) (v : String)
    (h : EXTRA_VENDORED_PKGS.lookup dep.name = some v) :
    (vendorize_gz_dependency dep).name = v ∧
    (vendorize_gz_dependency { name := "dartsim" }).name =
      "gz_dartsim_vendor" ∧
    (vendorize_gz_dependency { name := "dartsim" }).name ≠ "dartsim_vendor" ∧
    (∀ d : Dependency, is_gz_library d = true →
      (vendorize_gz_dependency d).name ≠ "dartsim_vendor") := by
  refine ⟨?_, by decide, by decide, vendorize_ne_dartsim⟩
  unfold vendorize_gz_dependency
  rw [h]

/-- Witness for C4 at the exception key DART. -/
theorem C4_witness :
    (vendorize_gz_dependency { name := "DART" }).name = "gz_dartsim_vendor" :=
  (C4_exception_rewrite { name := "DART" } "gz_dartsim_vendor" (by decide)).1

/-- C5: after the disallow filter runs - once, ahead of classification, over
all seven dependency kinds - no dependency with a denylisted name appears in
any dependency list of either generated artifact: neither among the
rewritten vendor dependencies nor in any per-kind list of the output
package. -/
theorem C5_disallow_filter (pkg : Package) (d : Dependency)
    (h : d ∈ generatedArtifactDeps pkg) :
    d.name ∉ DEPENDENCY_DISALLOW_LIST := by
  simp only [generatedArtifactDeps, separate_and_vendorize_gz_deps,
    separate_gz_deps_eq, filter_dependencies, List.mem_append] at h
  rcases h with (((((((hv | hb) | hbt) | hbe) | hbte) | hex) | ht) | hdc)
  · rcases List.mem_map.mp hv with ⟨e, _, rfl⟩
    exact vendorize_name_not_disallowed e
  · exact filter_impl_name (List.mem_filter.mp hb).1
  · exact filter_impl_name hbt
  · exact filter_impl_name hbe
  · exact filter_impl_name hbte
  · exact filter_impl_name (List.mem_filter.mp hex).1
  · exact filter_impl_name (List.mem_filter.mp ht).1
  · exact filter_impl_name (List.mem_filter.mp hdc).1

/-- Witness for C5: a surviving passthrough dependency of a package that
also declared python3-distutils is not denylisted. -/
theorem C5_witness :
    ({ name := "foo" } : Dependency).name ∉ DEPENDENCY_DISALLOW_LIST :=
  C5_disallow_filter
    { name := "gz-sim9", version := "1.2.3",
      exec_depends := [{ name := "foo" }, { name := "python3-distutils" }] }
    { name := "foo" } (by decide)

/-- C3 counterexample: stable_unique deduplicates by full structural
equality, not by name - two dependencies sharing the name gz-math7 but
carrying different version constraints both survive, so the later
occurrence of the same name is not dropped. -/
theorem C3_counterexample :
    stable_unique
        [({ name := "gz-math7", version_lt := some "1" } : Dependency),
         { name := "gz-math7", version_lt := some "2" }] =
      [({ name := "gz-math7", version_lt := some "1" } : Dependency),
       { name := "gz-math7", version_lt := some "2" }] ∧
    ({ name := "gz-math7", version_lt := some "1" } : Dependency).name =
      ({ name := "gz-math7", version_lt := some "2" } : Dependency).name ∧
    ({ name := "gz-math7", version_lt := some "1" } : Dependency) ≠
      { name := "gz-math7", version_lt := some "2" } := by
  refine ⟨by decide, rfl, by decide⟩

/-- C3 amended: deduplication is stable but keyed by the whole dependency
value (the embedding of catkin Dependency equality), not by name alone: the
output satisfies the first-occurrence-wins recurrence, is duplicate-free,
preserves membership, and is an order-preserving sublist of the input;
inputs differing only in the order of structurally identical duplicates are
equal as lists and so trivially yield the same output. -/
theorem C3_amended (x : Dependency) (l m : List Dependency) :
    stable_unique (x :: m) =
      x :: stable_unique (m.filter (fun y => decide (y ≠ x))) ∧
    (stable_unique l).Nodup ∧
    (∀ y, y ∈ stable_unique l ↔ y ∈ l) ∧
    List.Sublist (stable_unique l) l := by
  refine ⟨?_, ?_, fun y => mem_stable_unique, ?_⟩
  · rw [stable_unique_eq_dedupFirst, stable_unique_eq_dedupFirst, dedupFirst]
  · rw [stable_unique_eq_dedupFirst]; exact dedupFirst_nodup l
  · rw [stable_unique_eq_dedupFirst]; exact dedupFirst_sublist l

/-- C6: on a well-formed identifier - a run of lowercase letters, hyphens
and underscores followed by a possibly empty run of digits - the
remove_version groups are exactly those two runs, so concatenating the base
and digit components reproduces the original string. -/
theorem C6_normalize_roundtrip (a b : String)
    (ha : ∀ c ∈ a.data, isNameChar c = true)
    (hb : ∀ c ∈ b.data, c.isDigit = true) :
    removeVersionPair (a ++ b) = (a, b) ∧
    (removeVersionPair (a ++ b)).1 ++ (removeVersionPair (a ++ b)).2 =
      a ++ b := by
  have htake : (a.data ++ b.data).takeWhile isNameChar = a.data := by
    rw [List.takeWhile_append_of_pos ha]
    cases hbd : b.data with
    | nil => simp
    | cons c rest =>
      have hc : isNameChar c = false :=
        isDigit_isNameChar_false (hb c (by rw [hbd]; exact List.mem_cons_self c rest))
      rw [List.takeWhile_cons_of_neg (by simp [hc]), List.append_nil]
  have hdrop : (a.data ++ b.data).dropWhile isNameChar = b.data := by
    rw [List.dropWhile_append_of_pos ha]
    cases hbd : b.data with
    | nil => simp
    | cons c rest =>
      have hc : isNameChar c = false :=
        isDigit_isNameChar_false (hb c (by rw [hbd]; exact List.mem_cons_self c rest))
      rw [List.dropWhile_cons_of_neg (by simp [hc])]
  have hpair : removeVersionPair (a ++ b) = (a, b) := by
    simp only [removeVersionPair, String.data_append, htake, hdrop,
      takeWhile_all_eq hb]
  exact ⟨hpair, by rw [hpair]⟩

/-- Witness for C6 at the concrete identifier gz-sim9. -/
theorem C6_witness : removeVersionPair ("gz-sim" ++ "9") = ("gz-sim", "9") :=
  (C6_normalize_roundtrip "gz-sim" "9" (by decide) (by decide)).1

/-- Witness for C2: a fresh run yields 0.0.1 and a rerun with the first
output as prior descriptor yields the same version again. -/
theorem C2_witness :
    (create_vendor_package_params { name := "gz-sim9", version := "1.2.3" }
        (some { name := "gz_sim_vendor", version :=
          (create_vendor_package_params { name := "gz-sim9", version := "1.2.3" }
            none).vendor_pkg_version })).vendor_pkg_version =
      (create_vendor_package_params { name := "gz-sim9", version := "1.2.3" }
        none).vendor_pkg_version :=
  (C2_version_carryover { name := "gz-sim9", version := "1.2.3" } none).2.2
    { name := "gz-sim9", version := "1.2.3" }
    { name := "gz_sim_vendor", version :=
      (create_vendor_package_params { name := "gz-sim9", version := "1.2.3" }
        none).vendor_pkg_version }
    rfl

theorem head?_dot_cons {l : List Char} (h : l.head? = some '.') :
    l = '.' :: l.tail := by
  cases l with
  | nil => cases h
  | cons c t =>
    simp only [List.head?_cons, Option.some.injEq] at h
    rw [h]
    rfl

/-- C7 counterexample: the Python dollar anchor also matches just before one
final newline, so split_version accepts the string 1.2.3 followed by a
newline - an input that is not exactly three dot-separated integers - and
returns the record instead of the claimed ValueError. -/
theorem C7_counterexample :
    split_version "1.2.3\n" = Except.ok ⟨1, 2, 3⟩ ∧
    ¬ ∃ d1 d2 d3 : List Char, d1 ≠ [] ∧ d2 ≠ [] ∧ d3 ≠ [] ∧
      (∀ c ∈ d1, c.isDigit = true) ∧ (∀ c ∈ d2, c.isDigit = true) ∧
      (∀ c ∈ d3, c.isDigit = true) ∧
      ("1.2.3\n").data = d1 ++ ('.' :: (d2 ++ ('.' :: d3))) := by
  refine ⟨rfl, ?_⟩
  rintro ⟨d1, d2, d3, h1, h2, h3, hd1, hd2, hd3, hdata⟩
  have hmem : '\n' ∈ ("1.2.3\n").data := by decide
  rw [hdata] at hmem
  simp only [List.mem_append, List.mem_cons] at hmem
  rcases hmem with h | h | h | h | h
  · exact absurd (hd1 _ h) (by decide)
  · exact absurd h (by decide)
  · exact absurd (hd2 _ h) (by decide)
  · exact absurd h (by decide)
  · exact absurd (hd3 _ h) (by decide)

/-- C7 amended: split_version returns the record of the three integers
exactly when the input string is three dot-separated nonempty runs of
digits followed by nothing or by one final newline (the Python dollar
anchor); on every other input it takes the ValueError branch. -/
theorem C7_split_version (s : String) :
    (∀ d1 d2 d3 t : List Char,
        t = [] ∨ t = ['\n'] →
        d1 ≠ [] → d2 ≠ [] → d3 ≠ [] →
        (∀ c ∈ d1, c.isDigit = true) → (∀ c ∈ d2, c.isDigit = true) →
        (∀ c ∈ d3, c.isDigit = true) →
        s.data = d1 ++ ('.' :: (d2 ++ ('.' :: (d3 ++ t)))) →
        split_version s =
          Except.ok ⟨digitsToNat d1, digitsToNat d2, digitsToNat d3⟩) ∧
    ((¬ ∃ d1 d2 d3 t : List Char, (t = [] ∨ t = ['\n']) ∧
        d1 ≠ [] ∧ d2 ≠ [] ∧ d3 ≠ [] ∧
        (∀ c ∈ d1, c.isDigit = true) ∧ (∀ c ∈ d2, c.isDigit = true) ∧
        (∀ c ∈ d3, c.isDigit = true) ∧
        s.data = d1 ++ ('.' :: (d2 ++ ('.' :: (d3 ++ t))))) →
      ∃ msg, split_version s = Except.error msg) := by
  have hdot : ('.').isDigit = false := by decide
  constructor
  · intro d1 d2 d3 t ht h1 h2 h3 hd1 hd2 hd3 hdata
    have t1 : s.data.takeWhile Char.isDigit = d1 := by
      rw [hdata, List.takeWhile_append_of_pos hd1,
        List.takeWhile_cons_of_neg (by simp [hdot]), List.append_nil]
    have r1 : s.data.dropWhile Char.isDigit =
        '.' :: (d2 ++ ('.' :: (d3 ++ t))) := by
      rw [hdata, List.dropWhile_append_of_pos hd1,
        List.dropWhile_cons_of_neg (by simp [hdot])]
    have t2 : (d2 ++ ('.' :: (d3 ++ t))).takeWhile Char.isDigit = d2 := by
      rw [List.takeWhile_append_of_pos hd2,
        List.takeWhile_cons_of_neg (by simp [hdot]), List.append_nil]
    have r2 : (d2 ++ ('.' :: (d3 ++ t))).dropWhile Char.isDigit =
        '.' :: (d3 ++ t) := by
      rw [List.dropWhile_append_of_pos hd2,
        List.dropWhile_cons_of_neg (by simp [hdot])]
    have t3 : (d3 ++ t).takeWhile Char.isDigit = d3 := by
      rcases ht with rfl | rfl
      · rw [List.append_nil]
        exact takeWhile_all_eq hd3
      · rw [List.takeWhile_append_of_pos hd3,
          List.takeWhile_cons_of_neg (by decide), List.append_nil]
    have r3 : (d3 ++ t).dropWhile Char.isDigit = t := by
      rcases ht with rfl | rfl
      · rw [List.append_nil]
        exact dropWhile_all_eq hd3
      · rw [List.dropWhile_append_of_pos hd3,
          List.dropWhile_cons_of_neg (by decide)]
    simp only [split_version, t1, r1, List.tail_cons, List.head?_cons, t2,
      r2, t3, r3]
    rw [if_pos ⟨h1, trivial, h2, trivial, h3, ht⟩]
  · intro hne
    by_cases hcond : (s.data.takeWhile Char.isDigit ≠ [] ∧
        (s.data.dropWhile Char.isDigit).head? = some '.' ∧
        (s.data.dropWhile Char.isDigit).tail.takeWhile Char.isDigit ≠ [] ∧
        ((s.data.dropWhile Char.isDigit).tail.dropWhile
          Char.isDigit).head? = some '.' ∧
        ((s.data.dropWhile Char.isDigit).tail.dropWhile
          Char.isDigit).tail.takeWhile Char.isDigit ≠ [] ∧
        (((s.data.dropWhile Char.isDigit).tail.dropWhile
            Char.isDigit).tail.dropWhile Char.isDigit = [] ∨
          ((s.data.dropWhile Char.isDigit).tail.dropWhile
            Char.isDigit).tail.dropWhile Char.isDigit = ['\n']))
    · exfalso
      apply hne
      obtain ⟨h1, hh1, h2, hh2, h3, hr3⟩ := hcond
      refine ⟨s.data.takeWhile Char.isDigit,
        (s.data.dropWhile Char.isDigit).tail.takeWhile Char.isDigit,
        ((s.data.dropWhile Char.isDigit).tail.dropWhile
          Char.isDigit).tail.takeWhile Char.isDigit,
        ((s.data.dropWhile Char.isDigit).tail.dropWhile
          Char.isDigit).tail.dropWhile Char.isDigit,
        hr3, h1, h2, h3,
        fun c hc => List.mem_takeWhile_imp hc,
        fun c hc => List.mem_takeWhile_imp hc,
        fun c hc => List.mem_takeWhile_imp hc, ?_⟩
      rw [List.takeWhile_append_dropWhile, ← head?_dot_cons hh2,
        List.takeWhile_append_dropWhile, ← head?_dot_cons hh1,
        List.takeWhile_append_dropWhile]
    · exact ⟨_, by simp only [split_version]; rw [if_neg hcond]⟩

/-- Witness for C7 amended at the version string 1.2.3. -/
theorem C7_witness : split_version "1.2.3" = Except.ok ⟨1, 2, 3⟩ :=
  (C7_split_version "1.2.3").1 ['1'] ['2'] ['3'] []
    (Or.inl rfl) (by decide) (by decide) (by decide)
    (by decide) (by decide) (by decide) rfl

theorem anyGzCmake4_ok {deps : List Dependency}
    (h : ∀ d ∈ deps, (removeVersionPair d.name).1 ≠ "gz-cmake") :
    anyGzCmake4 deps = Except.ok false := by
  induction deps with
  | nil => rfl
  | cons d rest ih =>
    have hd : is_gz_cmake4 d.name = Except.ok false := by
      unfold is_gz_cmake4
      rw [if_neg (h d (List.mem_cons_self d rest))]
    simp only [anyGzCmake4, hd]
    exact ih fun x hx => h x (List.mem_cons_of_mem d hx)

/-- C10 counterexample: the claim fails when the package itself is gz-cmake4
or later - build_docs_deprecated then returns True without examining the
build dependencies, so a bare gz-cmake build dependency does not raise. -/
theorem C10_counterexample :
    build_docs_deprecated
        { name := "gz-cmake4", version := "1.0.0",
          build_depends := [{ name := "gz-cmake" }] } = Except.ok true ∧
    ({ name := "gz-cmake4", version := "1.0.0",
        build_depends := [{ name := "gz-cmake" }] } : Package).build_depends.map
        Dependency.name = ["gz-cmake"] :=
  ⟨rfl, rfl⟩

/-- C10 amended: int applied to the empty digit group raises exactly when a
bare gz-cmake name is actually evaluated: a package whose own name has base
gz-cmake and no trailing digits makes build_docs_deprecated (and
pkg_has_patches on that name split) raise the ValueError; when neither the
package name nor any build dependency has base gz-cmake both functions
return without error; and a package that is itself gz-cmake at major 4 or
later returns True before examining its build dependencies, so a bare
gz-cmake build dependency does not raise in that case. -/
theorem C10_amended (pkg : Package) :
    (removeVersionPair pkg.name = ("gz-cmake", "") →
      build_docs_deprecated pkg =
        Except.error "invalid literal for int() with base 10" ∧
      pkg_has_patches (removeVersionPair pkg.name).1
          (removeVersionPair pkg.name).2 =
        Except.error "invalid literal for int() with base 10") ∧
    ((removeVersionPair pkg.name).1 ≠ "gz-cmake" →
      (∀ d ∈ pkg.build_depends, (removeVersionPair d.name).1 ≠ "gz-cmake") →
      build_docs_deprecated pkg = Except.ok false ∧
      ∃ b, pkg_has_patches (removeVersionPair pkg.name).1
          (removeVersionPair pkg.name).2 = Except.ok b) ∧
    (is_gz_cmake4 pkg.name = Except.ok true →
      build_docs_deprecated pkg = Except.ok true) := by
  refine ⟨fun h => ?_, fun h1 h2 => ?_, fun h => ?_⟩
  · have hg : is_gz_cmake4 pkg.name =
        Except.error "invalid literal for int() with base 10" := by
      unfold is_gz_cmake4
      rw [h]
      rfl
    constructor
    · unfold build_docs_deprecated
      rw [hg]
      rfl
    · rw [h]
      rfl
  · have hg : is_gz_cmake4 pkg.name = Except.ok false := by
      unfold is_gz_cmake4
      rw [if_neg h1]
    constructor
    · unfold build_docs_deprecated
      rw [hg]
      exact anyGzCmake4_ok h2
    · refine ⟨["gz-rendering"].contains (removeVersionPair pkg.name).1, ?_⟩
      unfold pkg_has_patches
      rw [if_neg h1]
  · unfold build_docs_deprecated
    rw [h]
    rfl

/-- Witness for C10 amended at the bare package name gz-cmake. -/
theorem C10_witness :
    build_docs_deprecated { name := "gz-cmake", version := "1.0.0" } =
      Except.error "invalid literal for int() with base 10" :=
  ((C10_amended { name := "gz-cmake", version := "1.0.0" }).1 rfl).1

end GzVendor
